import Mathlib

/-!
Verification of the Kontracts-API lease-accounting engine.

The definitions below are a shallow embedding of the schedule-generation
core in src/app/services/asc842_calculator.py and
src/app/services/ifrs16_calculator.py, together with the lease-date
validation in src/app/api/v1/leases.py.  Currency values are modelled as
exact rationals: Python Decimal arithmetic is exact at the magnitudes the
engine works with, and the double-precision float arithmetic used inside
the present-value loops is modelled by the exact rational value it
approximates.  Calendar dates are modelled as integer day numbers, so a
Python timedelta day count (d2 - d1).days becomes integer subtraction.
-/

namespace Kontracts

/-- Round-half-up quantization at d decimal places, modelling Python
Decimal.quantize with rounding ROUND_HALF_UP (ties round away from zero). -/
def roundHalfUp (q : ℚ) (d : ℕ) : ℚ :=
  let m : ℚ := (10 : ℚ) ^ d
  (if 0 ≤ q then ((⌊q * m + 1/2⌋ : ℤ) : ℚ) else -((⌊-q * m + 1/2⌋ : ℤ) : ℚ)) / m

/-- One payment row fetched from the Payments table for a lease: the
amount and the due date (as a day number), ordered ascending by due date
by fetch_payments_from_db. -/
structure Payment where
  amount : ℚ
  dueDate : ℤ
deriving DecidableEq

instance : Inhabited Payment := ⟨⟨0, 0⟩⟩

/-- Lease classification enum from src/app/models/lease.py. -/
inductive LeaseClassification
  | finance
  | operating
deriving DecidableEq

/-- The financial attributes of a lease consumed by the calculators
(src/app/models/lease.py).  Rates are annual percentages, e.g. 5 for 5%. -/
structure Lease where
  commencementDate : ℤ
  endDate : ℤ
  incrementalBorrowingRate : ℚ
  discountRate : ℚ
  initialDirectCosts : ℚ
  prepaidRent : ℚ
  leaseIncentives : ℚ
  residualValue : ℚ
  classification : LeaseClassification
deriving DecidableEq

/-- One schedule row, mirroring the entry dictionaries built by the
calculators (and the LeaseScheduleEntry columns). -/
structure ScheduleEntry where
  period : ℕ
  periodDate : ℤ
  leasePayment : ℚ
  interestExpense : ℚ
  principalReduction : ℚ
  leaseLiabilityBeginning : ℚ
  leaseLiabilityEnding : ℚ
  rouAssetBeginning : ℚ
  amortization : ℚ
  rouAssetEnding : ℚ
  totalExpense : ℚ
deriving DecidableEq

instance : Inhabited ScheduleEntry :=
  ⟨⟨0, 0, 0, 0, 0, 0, 0, 0, 0, 0, 0⟩⟩

/-- Day gaps between consecutive due dates, mirroring the loops that fill
days_between in calculate_period_rate_from_payments. -/
def consecutiveGaps : List Payment → List ℤ
  | p1 :: p2 :: rest => (p2.dueDate - p1.dueDate) :: consecutiveGaps (p2 :: rest)
  | _ => []

/-- The per-payment discounted contributions accumulated by the loops in
calculate_present_value_from_payments / calculate_present_value, with the
1-indexed period number threaded through (the loops use
enumerate(payment_schedule, start=1)).  The float arithmetic of the source
is modelled exactly over the rationals. -/
def pvTerms (r : ℚ) : List Payment → ℕ → ℚ
  | [], _ => 0
  | p :: rest, k =>
    (if r = 0 then p.amount else p.amount * (1 / (1 + r) ^ k)) + pvTerms r rest (k + 1)

/-- The synthetic period-0 row appended by both ASC 842 schedule variants:
all flow fields zero, balances equal to the initial measurements. -/
def period0Entry (lease : Lease) (rou_asset lease_liability : ℚ) : ScheduleEntry :=
  { period := 0
    periodDate := lease.commencementDate
    leasePayment := 0
    interestExpense := 0
    principalReduction := 0
    leaseLiabilityBeginning := lease_liability
    leaseLiabilityEnding := lease_liability
    rouAssetBeginning := rou_asset
    amortization := 0
    rouAssetEnding := rou_asset
    totalExpense := 0 }

/-- Errors surfaced by the calculators: fetch_payments_from_db raises
ValueError when the lease has no payment rows. -/
inductive CalcError
  | noPaymentsFound
deriving DecidableEq

/-- The schedule record assembled by generate_schedule: initial
measurements, summary totals, the in-memory entry list, and the subset of
entries handed to the database (totalAmortization is called
total_depreciation on the IFRS 16 model). -/
structure GeneratedSchedule where
  initialRouAsset : ℚ
  initialLeaseLiability : ℚ
  totalPayments : ℚ
  totalInterest : ℚ
  totalAmortization : ℚ
  entries : List ScheduleEntry
  storedEntries : List ScheduleEntry
deriving DecidableEq

namespace ASC842Calculator

/-- ASC842Calculator.calculate_period_rate_from_payments: annual IBR as a
percentage, divided by 100 and by the inferred periods per year. -/
def calculate_period_rate_from_payments (lease : Lease) (ps : List Payment) : ℚ :=
  let annual_rate := lease.incrementalBorrowingRate / 100
  let periods : ℚ :=
    if 1 < ps.length then
      let days_between := (consecutiveGaps ps).filter (fun d => 0 < d)
      if days_between = [] then 12
      else
        let avg_days : ℚ := (days_between.sum : ℚ) / (days_between.length : ℚ)
        if avg_days ≤ 35 then 12
        else if avg_days ≤ 100 then 4
        else 1
    else 12
  annual_rate / periods

/-- ASC842Calculator.calculate_present_value_from_payments: discount each
payment by one full period (enumerate start=1), add the residual value
(discounted when the rate is positive), and quantize to 2 decimals. -/
def calculate_present_value_from_payments (lease : Lease) (ps : List Payment)
    (period_rate : ℚ) : ℚ :=
  let pv := pvTerms period_rate ps 1
  let pv :=
    if 0 < lease.residualValue then
      if 0 < period_rate then pv + lease.residualValue / (1 + period_rate) ^ ps.length
      else pv + lease.residualValue
    else pv
  roundHalfUp pv 2

/-- ASC842Calculator.calculate_initial_measurements, returning
(rou_asset, lease_liability). -/
def calculate_initial_measurements (lease : Lease) (ps : List Payment)
    (period_rate : ℚ) : ℚ × ℚ :=
  let lease_liability := calculate_present_value_from_payments lease ps period_rate
  let rou_asset :=
    lease_liability + lease.initialDirectCosts + lease.prepaidRent - lease.leaseIncentives
  (rou_asset, lease_liability)

/-- The period loop of _generate_finance_lease_schedule: payment first,
interest accrued on the post-payment balance, straight-line amortization
with the final period taking the remaining asset, endings clamped at 0. -/
def financeRows (period_rate amortization_per_period : ℚ) (n_periods : ℕ) :
    List Payment → ℕ → ℚ → ℚ → List ScheduleEntry
  | [], _, _, _ => []
  | payment :: rest, period_num, liability_balance, asset_balance =>
    let principal_reduction := payment.amount
    let liability_after_payment := liability_balance - principal_reduction
    let interest_expense := roundHalfUp (liability_after_payment * period_rate) 2
    let liability_ending := liability_after_payment + interest_expense
    let amortization := if period_num = n_periods then asset_balance else amortization_per_period
    let asset_ending := asset_balance - amortization
    { period := period_num
      periodDate := payment.dueDate
      leasePayment := payment.amount
      interestExpense := interest_expense
      principalReduction := principal_reduction
      leaseLiabilityBeginning := liability_balance
      leaseLiabilityEnding := max liability_ending 0
      rouAssetBeginning := asset_balance
      amortization := amortization
      rouAssetEnding := max asset_ending 0
      totalExpense := interest_expense + amortization } ::
      financeRows period_rate amortization_per_period n_periods rest (period_num + 1)
        (max liability_ending 0) (max asset_ending 0)

/-- ASC842Calculator._generate_finance_lease_schedule. -/
def generate_finance_lease_schedule (lease : Lease) (rou_asset lease_liability : ℚ)
    (ps : List Payment) (period_rate : ℚ) : List ScheduleEntry :=
  let n_periods := ps.length
  let amortization_per_period := roundHalfUp (rou_asset / (n_periods : ℚ)) 2
  period0Entry lease rou_asset lease_liability ::
    financeRows period_rate amortization_per_period n_periods ps 1 lease_liability rou_asset

/-- The period loop of _generate_operating_lease_schedule: interest on the
beginning balance, amortization is the plug straight_line_expense minus
interest, floored at 0 and capped at the running asset balance. -/
def operatingRows (period_rate straight_line_expense : ℚ) :
    List Payment → ℕ → ℚ → ℚ → List ScheduleEntry
  | [], _, _, _ => []
  | payment :: rest, period_num, liability_balance, asset_balance =>
    let principal_reduction := payment.amount
    let liability_after_payment := liability_balance - principal_reduction
    let interest_expense := roundHalfUp (liability_balance * period_rate) 2
    let liability_ending := liability_after_payment + interest_expense
    let amortization0 := straight_line_expense - interest_expense
    let amortization1 := if amortization0 < 0 then 0 else amortization0
    let amortization := if asset_balance < amortization1 then asset_balance else amortization1
    let asset_ending := asset_balance - amortization
    { period := period_num
      periodDate := payment.dueDate
      leasePayment := payment.amount
      interestExpense := interest_expense
      principalReduction := principal_reduction
      leaseLiabilityBeginning := liability_balance
      leaseLiabilityEnding := max liability_ending 0
      rouAssetBeginning := asset_balance
      amortization := amortization
      rouAssetEnding := max asset_ending 0
      totalExpense := straight_line_expense } ::
      operatingRows period_rate straight_line_expense rest (period_num + 1)
        (max liability_ending 0) (max asset_ending 0)

/-- ASC842Calculator._generate_operating_lease_schedule. -/
def generate_operating_lease_schedule (lease : Lease) (rou_asset lease_liability : ℚ)
    (ps : List Payment) (period_rate : ℚ) : List ScheduleEntry :=
  let n_periods := ps.length
  let total_payments := (ps.map Payment.amount).sum
  let total_lease_cost := total_payments + lease.initialDirectCosts
  let straight_line_expense := roundHalfUp (total_lease_cost / (n_periods : ℚ)) 2
  period0Entry lease rou_asset lease_liability ::
    operatingRows period_rate straight_line_expense ps 1 lease_liability rou_asset

/-- The entry list built by ASC842Calculator.generate_schedule after the
payments have been fetched: rate derivation, initial measurement, then
classification dispatch to the finance or operating variant. -/
def schedule_entries (lease : Lease) (ps : List Payment) : List ScheduleEntry :=
  let period_rate := calculate_period_rate_from_payments lease ps
  let m := calculate_initial_measurements lease ps period_rate
  if lease.classification = LeaseClassification.finance then
    generate_finance_lease_schedule lease m.1 m.2 ps period_rate
  else
    generate_operating_lease_schedule lease m.1 m.2 ps period_rate

/-- ASC842Calculator.generate_schedule, with the database boundary
abstracted away: the fetched payment list is taken as input (an empty list
makes fetch_payments_from_db raise), totals are summed over entries with
period > 0, and only those entries are stored as LeaseScheduleEntry rows. -/
def generate_schedule (lease : Lease) (ps : List Payment) :
    Except CalcError GeneratedSchedule :=
  if ps = [] then Except.error CalcError.noPaymentsFound
  else
    let period_rate := calculate_period_rate_from_payments lease ps
    let m := calculate_initial_measurements lease ps period_rate
    let entries := schedule_entries lease ps
    let actual_entries := entries.filter (fun e => 0 < e.period)
    Except.ok
      { initialRouAsset := m.1
        initialLeaseLiability := m.2
        totalPayments := (actual_entries.map ScheduleEntry.leasePayment).sum
        totalInterest := (actual_entries.map ScheduleEntry.interestExpense).sum
        totalAmortization := (actual_entries.map ScheduleEntry.amortization).sum
        entries := entries
        storedEntries := actual_entries }

end ASC842Calculator

namespace IFRS16Calculator

/-- IFRS16Calculator.calculate_period_rate_from_payments: identical cadence
inference, driven by the lease's discount_rate. -/
def calculate_period_rate_from_payments (lease : Lease) (ps : List Payment) : ℚ :=
  let annual_rate := lease.discountRate / 100
  let periods : ℚ :=
    if 1 < ps.length then
      let days_between := (consecutiveGaps ps).filter (fun d => 0 < d)
      if days_between = [] then 12
      else
        let avg_days : ℚ := (days_between.sum : ℚ) / (days_between.length : ℚ)
        if avg_days ≤ 35 then 12
        else if avg_days ≤ 100 then 4
        else 1
    else 12
  annual_rate / periods

/-- IFRS16Calculator.calculate_present_value: same discounting as the
ASC 842 engine but quantized to 3 decimals, and the residual value is
added undiscounted exactly when the rate is zero. -/
def calculate_present_value (lease : Lease) (ps : List Payment) (period_rate : ℚ) : ℚ :=
  let pv := pvTerms period_rate ps 1
  let pv :=
    if 0 < lease.residualValue then
      if period_rate = 0 then pv + lease.residualValue
      else pv + lease.residualValue / (1 + period_rate) ^ ps.length
    else pv
  roundHalfUp pv 3

/-- IFRS16Calculator.calculate_initial_measurements, returning
(rou_asset, lease_liability). -/
def calculate_initial_measurements (lease : Lease) (ps : List Payment)
    (period_rate : ℚ) : ℚ × ℚ :=
  let lease_liability := calculate_present_value lease ps period_rate
  let rou_asset :=
    lease_liability + lease.initialDirectCosts + lease.prepaidRent - lease.leaseIncentives
  (rou_asset, lease_liability)

/-- The period loop of _generate_ifrs16_schedule: interest on the
beginning balance (3-decimal rounding), principal reduction is payment
minus interest, straight-line depreciation with the final period taking
the remaining asset, endings clamped at 0. -/
def ifrs16Rows (period_rate depreciation_per_period : ℚ) (n_periods : ℕ) :
    List Payment → ℕ → ℚ → ℚ → List ScheduleEntry
  | [], _, _, _ => []
  | payment :: rest, period_num, remaining_liability, remaining_asset =>
    let interest_expense := roundHalfUp (remaining_liability * period_rate) 3
    let principal_reduction := payment.amount - interest_expense
    let ending_liability := remaining_liability - principal_reduction
    let depreciation :=
      if period_num = n_periods then remaining_asset else depreciation_per_period
    let ending_asset := remaining_asset - depreciation
    { period := period_num
      periodDate := payment.dueDate
      leasePayment := payment.amount
      interestExpense := interest_expense
      principalReduction := principal_reduction
      leaseLiabilityBeginning := remaining_liability
      leaseLiabilityEnding := max ending_liability 0
      rouAssetBeginning := remaining_asset
      amortization := depreciation
      rouAssetEnding := max ending_asset 0
      totalExpense := interest_expense + depreciation } ::
      ifrs16Rows period_rate depreciation_per_period n_periods rest (period_num + 1)
        (max ending_liability 0) (max ending_asset 0)

/-- IFRS16Calculator._generate_ifrs16_schedule. -/
def generate_ifrs16_schedule (rou_asset lease_liability : ℚ)
    (ps : List Payment) (period_rate : ℚ) : List ScheduleEntry :=
  let n_periods := ps.length
  let depreciation_per_period := roundHalfUp (rou_asset / (n_periods : ℚ)) 3
  ifrs16Rows period_rate depreciation_per_period n_periods ps 1 lease_liability rou_asset

/-- The entry list built by IFRS16Calculator.generate_schedule after the
payments have been fetched. -/
def schedule_entries (lease : Lease) (ps : List Payment) : List ScheduleEntry :=
  let period_rate := calculate_period_rate_from_payments lease ps
  let m := calculate_initial_measurements lease ps period_rate
  generate_ifrs16_schedule m.1 m.2 ps period_rate

/-- IFRS16Calculator.generate_schedule, database boundary abstracted as
for ASC 842: no period-0 entry exists, totals are summed over all entries
and every entry is stored. -/
def generate_schedule (lease : Lease) (ps : List Payment) :
    Except CalcError GeneratedSchedule :=
  if ps = [] then Except.error CalcError.noPaymentsFound
  else
    let period_rate := calculate_period_rate_from_payments lease ps
    let m := calculate_initial_measurements lease ps period_rate
    let entries := schedule_entries lease ps
    Except.ok
      { initialRouAsset := m.1
        initialLeaseLiability := m.2
        totalPayments := (entries.map ScheduleEntry.leasePayment).sum
        totalInterest := (entries.map ScheduleEntry.interestExpense).sum
        totalAmortization := (entries.map ScheduleEntry.amortization).sum
        entries := entries
        storedEntries := entries }

end IFRS16Calculator

namespace LeasesApi

/-- Outcome of the lease-date validation in src/app/api/v1/leases.py:
invalidLeaseTerm models the HTTP 422 response whose detail says end_date
must be after commencement_date. -/
inductive ApiError
  | invalidLeaseTerm
deriving DecidableEq

/-- The helper _validate_lease_dates called by the create and update lease
endpoints before any lease row is persisted. -/
def validate_lease_dates (commencement_date end_date : ℤ) : Except ApiError Unit :=
  if end_date ≤ commencement_date then Except.error ApiError.invalidLeaseTerm
  else Except.ok ()

end LeasesApi

/-- The present-value formula as the specification states it: the payment
at 1-indexed period k contributes amount/(1+r)^k, and a strictly positive
residual value contributes residual/(1+r)^n with n the number of payments.
At r = 0 every discount factor is 1, so the formula degenerates to the
straight sum the specification describes. -/
def pvFormula (ps : List Payment) (residual r : ℚ) : ℚ :=
  (∑ k ∈ Finset.range ps.length, (ps.getD k default).amount / (1 + r) ^ (k + 1)) +
    (if 0 < residual then residual / (1 + r) ^ ps.length else 0)

/-- The periods-per-year bucketing as the specification states it: 12 when
there are fewer than two payments or no strictly positive consecutive day
gap, otherwise 12/4/1 chosen by the average of the strictly positive
gaps (≤ 35 monthly, ≤ 100 quarterly, else annual). -/
def claimPeriodsPerYear (ps : List Payment) : ℚ :=
  if ps.length < 2 ∨ ∀ d ∈ consecutiveGaps ps, d ≤ 0 then 12
  else
    let gaps := (consecutiveGaps ps).filter (fun d => 0 < d)
    let avg : ℚ := (gaps.sum : ℚ) / (gaps.length : ℚ)
    if avg ≤ 35 then 12
    else if avg ≤ 100 then 4
    else 1

/-- Adjacent schedule rows are linked: the later row's beginning balances
equal the earlier row's recorded (clamped) ending balances. -/
def EntryLink (e e' : ScheduleEntry) : Prop :=
  e'.leaseLiabilityBeginning = e.leaseLiabilityEnding ∧
    e'.rouAssetBeginning = e.rouAssetEnding

/-- Strengthened adjacency: the balances are linked and the later row's
recorded ending liability is the clamp to zero of its beginning liability
minus its payment plus its interest expense. -/
def EntryStep (e e' : ScheduleEntry) : Prop :=
  e'.leaseLiabilityBeginning = e.leaseLiabilityEnding ∧
    e'.rouAssetBeginning = e.rouAssetEnding ∧
    e'.leaseLiabilityEnding =
      max (e'.leaseLiabilityBeginning - e'.leasePayment + e'.interestExpense) 0

/-- Conditional strict decay across one step: when the earlier row's
ending liability is positive and the later row's interest expense is below
its payment, the recorded ending liability strictly decreases. -/
def DecayStep (e e' : ScheduleEntry) : Prop :=
  0 < e.leaseLiabilityEnding → e'.interestExpense < e'.leasePayment →
    e'.leaseLiabilityEnding < e.leaseLiabilityEnding

/-- Whether a generation attempt produced a schedule. -/
def succeeded : Except CalcError GeneratedSchedule → Bool
  | Except.ok _ => true
  | Except.error _ => false

/-- A finance-classified lease with a 12% annual rate and no adjustment
terms, used as a concrete evaluation point. -/
def stdFinLease : Lease :=
  { commencementDate := 0
    endDate := 60
    incrementalBorrowingRate := 12
    discountRate := 12
    initialDirectCosts := 0
    prepaidRent := 0
    leaseIncentives := 0
    residualValue := 0
    classification := LeaseClassification.finance }

/-- The same lease classified as operating. -/
def stdOpLease : Lease :=
  { stdFinLease with classification := LeaseClassification.operating }

/-- Two payments of 1000 due 30 days apart (monthly cadence). -/
def twoPayments : List Payment := [⟨1000, 0⟩, ⟨1000, 30⟩]

/-- One payment of 100 due at commencement. -/
def onePayment100 : List Payment := [⟨100, 0⟩]

/-- A finance lease with a 120% annual rate (periodic rate 0.1). -/
def highRateLease : Lease :=
  { stdFinLease with incrementalBorrowingRate := 120, discountRate := 120 }

/-- A payment of 1000 followed by a payment of 0.01 thirty days later:
the first payment exceeds the discounted liability, so the liability is
clamped to zero with a further period remaining. -/
def clampPayments : List Payment := [⟨1000, 0⟩, ⟨1/100, 30⟩]

/-- A zero-rate finance lease whose lease incentives exceed the present
value of its payments, making the initial ROU asset negative. -/
def negRouLease : Lease :=
  { stdFinLease with
    incrementalBorrowingRate := 0
    discountRate := 0
    leaseIncentives := 500 }

/-- A zero-rate finance lease with no adjustment terms. -/
def zeroRateLease : Lease :=
  { stdFinLease with incrementalBorrowingRate := 0, discountRate := 0 }

/-- A zero-rate finance lease whose end date equals its commencement date:
a degenerate lease term. -/
def degenerateTermLease : Lease :=
  { zeroRateLease with endDate := 0 }

/-- A single payment of 1000: with a positive rate the liability is below
the payment, so the post-payment accrual base is negative. -/
def onePayment1000 : List Payment := [⟨1000, 0⟩]

/-- The schedule record generated for zeroRateLease from onePayment100
under ASC 842. -/
def zeroRateAscResult : GeneratedSchedule :=
  { initialRouAsset := 100
    initialLeaseLiability := 100
    totalPayments := 100
    totalInterest := 0
    totalAmortization := 100
    entries :=
      [{ period := 0, periodDate := 0, leasePayment := 0, interestExpense := 0,
         principalReduction := 0, leaseLiabilityBeginning := 100,
         leaseLiabilityEnding := 100, rouAssetBeginning := 100, amortization := 0,
         rouAssetEnding := 100, totalExpense := 0 },
       { period := 1, periodDate := 0, leasePayment := 100, interestExpense := 0,
         principalReduction := 100, leaseLiabilityBeginning := 100,
         leaseLiabilityEnding := 0, rouAssetBeginning := 100, amortization := 100,
         rouAssetEnding := 0, totalExpense := 100 }]
    storedEntries :=
      [{ period := 1, periodDate := 0, leasePayment := 100, interestExpense := 0,
         principalReduction := 100, leaseLiabilityBeginning := 100,
         leaseLiabilityEnding := 0, rouAssetBeginning := 100, amortization := 100,
         rouAssetEnding := 0, totalExpense := 100 }] }

/-- The schedule record generated for zeroRateLease from onePayment100
under IFRS 16. -/
def zeroRateIfrsResult : GeneratedSchedule :=
  { initialRouAsset := 100
    initialLeaseLiability := 100
    totalPayments := 100
    totalInterest := 0
    totalAmortization := 100
    entries :=
      [{ period := 1, periodDate := 0, leasePayment := 100, interestExpense := 0,
         principalReduction := 100, leaseLiabilityBeginning := 100,
         leaseLiabilityEnding := 0, rouAssetBeginning := 100, amortization := 100,
         rouAssetEnding := 0, totalExpense := 100 }]
    storedEntries :=
      [{ period := 1, periodDate := 0, leasePayment := 100, interestExpense := 0,
         principalReduction := 100, leaseLiabilityBeginning := 100,
         leaseLiabilityEnding := 0, rouAssetBeginning := 100, amortization := 100,
         rouAssetEnding := 0, totalExpense := 100 }] }

/-- The period-1 entry of the ASC 842 finance schedule for stdFinLease
driven by twoPayments. -/
def ascFinEntry1 : ScheduleEntry :=
  (ASC842Calculator.schedule_entries stdFinLease twoPayments).getD 1 default

/-- The period-2 entry of the same schedule. -/
def ascFinEntry2 : ScheduleEntry :=
  (ASC842Calculator.schedule_entries stdFinLease twoPayments).getD 2 default

/-- The period-1 entry of the ASC 842 operating schedule for stdOpLease
driven by twoPayments. -/
def ascOpEntry1 : ScheduleEntry :=
  (ASC842Calculator.schedule_entries stdOpLease twoPayments).getD 1 default

/-- The period-1 entry of the IFRS 16 schedule for stdFinLease driven by
twoPayments (IFRS 16 generates no period-0 entry, so index 0). -/
def ifrsEntry1 : ScheduleEntry :=
  (IFRS16Calculator.schedule_entries stdFinLease twoPayments).getD 0 default

/-- The period-1 and period-2 entries of the ASC 842 finance schedule for
highRateLease driven by clampPayments. -/
def clampEntry1 : ScheduleEntry :=
  (ASC842Calculator.schedule_entries highRateLease clampPayments).getD 1 default

/-- See clampEntry1. -/
def clampEntry2 : ScheduleEntry :=
  (ASC842Calculator.schedule_entries highRateLease clampPayments).getD 2 default

/-- The period-0 entry of the ASC 842 schedule for negRouLease driven by
onePayment100. -/
def negRouEntry0 : ScheduleEntry :=
  (ASC842Calculator.schedule_entries negRouLease onePayment100).getD 0 default

/-- The period-1 entry of the ASC 842 finance schedule for stdFinLease
driven by the single payment onePayment1000. -/
def singlePaymentEntry1 : ScheduleEntry :=
  (ASC842Calculator.schedule_entries stdFinLease onePayment1000).getD 1 default

theorem getD_default_mem {α : Type} [Inhabited α] (l : List α) (n : ℕ)
    (h : n < l.length) : l.getD n default ∈ l := by
  rw [List.getD_eq_getElem _ _ h]
  exact List.getElem_mem h

theorem discount_term (r a : ℚ) (k : ℕ) :
    (if r = 0 then a else a * (1 / (1 + r) ^ k)) = a / (1 + r) ^ k := by
  by_cases hr : r = 0
  · subst hr; simp
  · rw [if_neg hr, mul_one_div]

theorem pvTerms_eq_sum (r : ℚ) (ps : List Payment) :
    ∀ k0 : ℕ, pvTerms r ps k0 =
      ∑ k ∈ Finset.range ps.length, (ps.getD k default).amount / (1 + r) ^ (k + k0) := by
  induction ps with
  | nil => intro k0; simp [pvTerms]
  | cons p rest ih =>
    intro k0
    rw [pvTerms, discount_term, ih (k0 + 1), List.length_cons, Finset.sum_range_succ']
    have hsum :
        ∑ k ∈ Finset.range rest.length, (rest.getD k default).amount / (1 + r) ^ (k + (k0 + 1)) =
          ∑ k ∈ Finset.range rest.length,
            ((p :: rest).getD (k + 1) default).amount / (1 + r) ^ (k + 1 + k0) := by
      refine Finset.sum_congr rfl fun k _ => ?_
      rw [List.getD_cons_succ]
      congr 2
      omega
    rw [hsum]
    simp only [List.getD_cons_zero, Nat.zero_add]
    ring

theorem financeRows_length (r a : ℚ) (n : ℕ) (ps : List Payment) :
    ∀ (k : ℕ) (liab asset : ℚ),
      (ASC842Calculator.financeRows r a n ps k liab asset).length = ps.length := by
  induction ps with
  | nil => intro k liab asset; simp [ASC842Calculator.financeRows]
  | cons p rest ih =>
    intro k liab asset
    simp only [ASC842Calculator.financeRows, List.length_cons]
    rw [ih]

theorem operatingRows_length (r sle : ℚ) (ps : List Payment) :
    ∀ (k : ℕ) (liab asset : ℚ),
      (ASC842Calculator.operatingRows r sle ps k liab asset).length = ps.length := by
  induction ps with
  | nil => intro k liab asset; simp [ASC842Calculator.operatingRows]
  | cons p rest ih =>
    intro k liab asset
    simp only [ASC842Calculator.operatingRows, List.length_cons]
    rw [ih]

theorem ifrs16Rows_length (r a : ℚ) (n : ℕ) (ps : List Payment) :
    ∀ (k : ℕ) (liab asset : ℚ),
      (IFRS16Calculator.ifrs16Rows r a n ps k liab asset).length = ps.length := by
  induction ps with
  | nil => intro k liab asset; simp [IFRS16Calculator.ifrs16Rows]
  | cons p rest ih =>
    intro k liab asset
    simp only [IFRS16Calculator.ifrs16Rows, List.length_cons]
    rw [ih]

theorem financeRows_facts (r a : ℚ) (n : ℕ) (ps : List Payment) :
    ∀ (k : ℕ) (liab asset : ℚ),
      ∀ e ∈ ASC842Calculator.financeRows r a n ps k liab asset,
        e.principalReduction = e.leasePayment ∧
        e.leaseLiabilityEnding =
          max (e.leaseLiabilityBeginning - e.leasePayment + e.interestExpense) 0 ∧
        e.rouAssetEnding = max (e.rouAssetBeginning - e.amortization) 0 ∧
        e.interestExpense =
          roundHalfUp ((e.leaseLiabilityBeginning - e.leasePayment) * r) 2 ∧
        e.totalExpense = e.interestExpense + e.amortization ∧
        k ≤ e.period := by
  induction ps with
  | nil => intro k liab asset e he; simp [ASC842Calculator.financeRows] at he
  | cons p rest ih =>
    intro k liab asset e he
    simp only [ASC842Calculator.financeRows, List.mem_cons] at he
    rcases he with h | h
    · subst h
      exact ⟨rfl, rfl, rfl, rfl, rfl, le_refl _⟩
    · obtain ⟨h1, h2, h3, h4, h5, h6⟩ := ih (k + 1) _ _ e h
      exact ⟨h1, h2, h3, h4, h5, le_trans (Nat.le_succ k) h6⟩

theorem operatingRows_facts (r sle : ℚ) (ps : List Payment) :
    ∀ (k : ℕ) (liab asset : ℚ),
      ∀ e ∈ ASC842Calculator.operatingRows r sle ps k liab asset,
        e.principalReduction = e.leasePayment ∧
        e.leaseLiabilityEnding =
          max (e.leaseLiabilityBeginning - e.leasePayment + e.interestExpense) 0 ∧
        e.rouAssetEnding = max (e.rouAssetBeginning - e.amortization) 0 ∧
        e.interestExpense = roundHalfUp (e.leaseLiabilityBeginning * r) 2 ∧
        e.amortization = min (max (sle - e.interestExpense) 0) e.rouAssetBeginning ∧
        e.totalExpense = sle ∧
        k ≤ e.period := by
  induction ps with
  | nil => intro k liab asset e he; simp [ASC842Calculator.operatingRows] at he
  | cons p rest ih =>
    intro k liab asset e he
    simp only [ASC842Calculator.operatingRows, List.mem_cons] at he
    rcases he with h | h
    · subst h
      refine ⟨rfl, rfl, rfl, rfl, ?_, rfl, le_refl _⟩
      show (if asset < (if sle - _ < 0 then 0 else sle - _) then asset
          else (if sle - _ < 0 then 0 else sle - _)) = _
      rcases lt_or_le (sle - roundHalfUp (liab * r) 2) 0 with hneg | hpos
      · rw [if_pos hneg, max_eq_right (le_of_lt hneg)]
        rcases lt_or_le asset (0 : ℚ) with ha | ha
        · rw [if_pos ha, min_eq_right (le_of_lt ha)]
        · rw [if_neg (not_lt.mpr ha), min_eq_left ha]
      · rw [if_neg (not_lt.mpr hpos), max_eq_left hpos]
        rcases lt_or_le asset (sle - roundHalfUp (liab * r) 2) with ha | ha
        · rw [if_pos ha, min_eq_right (le_of_lt ha)]
        · rw [if_neg (not_lt.mpr ha), min_eq_left ha]
    · obtain ⟨h1, h2, h3, h4, h5, h6, h7⟩ := ih (k + 1) _ _ e h
      exact ⟨h1, h2, h3, h4, h5, h6, le_trans (Nat.le_succ k) h7⟩

theorem ifrs16Rows_facts (r a : ℚ) (n : ℕ) (ps : List Payment) :
    ∀ (k : ℕ) (liab asset : ℚ),
      ∀ e ∈ IFRS16Calculator.ifrs16Rows r a n ps k liab asset,
        e.principalReduction = e.leasePayment - e.interestExpense ∧
        e.leaseLiabilityEnding =
          max (e.leaseLiabilityBeginning - e.leasePayment + e.interestExpense) 0 ∧
        e.rouAssetEnding = max (e.rouAssetBeginning - e.amortization) 0 ∧
        e.interestExpense = roundHalfUp (e.leaseLiabilityBeginning * r) 3 ∧
        e.totalExpense = e.interestExpense + e.amortization ∧
        k ≤ e.period := by
  induction ps with
  | nil => intro k liab asset e he; simp [IFRS16Calculator.ifrs16Rows] at he
  | cons p rest ih =>
    intro k liab asset e he
    simp only [IFRS16Calculator.ifrs16Rows, List.mem_cons] at he
    rcases he with h | h
    · subst h
      refine ⟨rfl, ?_, rfl, rfl, rfl, le_refl _⟩
      show max (liab - (p.amount - roundHalfUp (liab * r) 3)) 0 = _
      congr 1
      ring
    · obtain ⟨h1, h2, h3, h4, h5, h6⟩ := ih (k + 1) _ _ e h
      exact ⟨h1, h2, h3, h4, h5, le_trans (Nat.le_succ k) h6⟩

theorem financeRows_chain (r a : ℚ) (n : ℕ) (ps : List Payment) :
    ∀ (k : ℕ) (liab asset : ℚ),
      List.Chain' EntryStep (ASC842Calculator.financeRows r a n ps k liab asset) := by
  induction ps with
  | nil => intro k liab asset; simp [ASC842Calculator.financeRows]
  | cons p rest ih =>
    intro k liab asset
    simp only [ASC842Calculator.financeRows]
    rw [List.chain'_cons']
    refine ⟨?_, ih (k + 1) _ _⟩
    intro y hy
    cases rest with
    | nil => simp [ASC842Calculator.financeRows] at hy
    | cons q rest2 =>
      simp only [ASC842Calculator.financeRows, List.head?_cons, Option.mem_some_iff] at hy
      subst hy
      exact ⟨rfl, rfl, rfl⟩

theorem operatingRows_chain (r sle : ℚ) (ps : List Payment) :
    ∀ (k : ℕ) (liab asset : ℚ),
      List.Chain' EntryStep (ASC842Calculator.operatingRows r sle ps k liab asset) := by
  induction ps with
  | nil => intro k liab asset; simp [ASC842Calculator.operatingRows]
  | cons p rest ih =>
    intro k liab asset
    simp only [ASC842Calculator.operatingRows]
    rw [List.chain'_cons']
    refine ⟨?_, ih (k + 1) _ _⟩
    intro y hy
    cases rest with
    | nil => simp [ASC842Calculator.operatingRows] at hy
    | cons q rest2 =>
      simp only [ASC842Calculator.operatingRows, List.head?_cons, Option.mem_some_iff] at hy
      subst hy
      exact ⟨rfl, rfl, rfl⟩

theorem ifrs16Rows_chain (r a : ℚ) (n : ℕ) (ps : List Payment) :
    ∀ (k : ℕ) (liab asset : ℚ),
      List.Chain' EntryStep (IFRS16Calculator.ifrs16Rows r a n ps k liab asset) := by
  induction ps with
  | nil => intro k liab asset; simp [IFRS16Calculator.ifrs16Rows]
  | cons p rest ih =>
    intro k liab asset
    simp only [IFRS16Calculator.ifrs16Rows]
    rw [List.chain'_cons']
    refine ⟨?_, ih (k + 1) _ _⟩
    intro y hy
    cases rest with
    | nil => simp [IFRS16Calculator.ifrs16Rows] at hy
    | cons q rest2 =>
      simp only [IFRS16Calculator.ifrs16Rows, List.head?_cons, Option.mem_some_iff] at hy
      subst hy
      refine ⟨rfl, rfl, ?_⟩
      show max _ 0 = max _ 0
      congr 1
      ring

theorem asc_schedule_entries_chain (lease : Lease) (ps : List Payment) :
    List.Chain' EntryStep (ASC842Calculator.schedule_entries lease ps) := by
  simp only [ASC842Calculator.schedule_entries]
  by_cases hc : lease.classification = LeaseClassification.finance
  · rw [if_pos hc]
    simp only [ASC842Calculator.generate_finance_lease_schedule]
    rw [List.chain'_cons']
    refine ⟨?_, financeRows_chain _ _ _ _ _ _ _⟩
    intro y hy
    cases ps with
    | nil => simp [ASC842Calculator.financeRows] at hy
    | cons p rest =>
      simp only [ASC842Calculator.financeRows, List.head?_cons, Option.mem_some_iff] at hy
      subst hy
      exact ⟨rfl, rfl, rfl⟩
  · rw [if_neg hc]
    simp only [ASC842Calculator.generate_operating_lease_schedule]
    rw [List.chain'_cons']
    refine ⟨?_, operatingRows_chain _ _ _ _ _ _⟩
    intro y hy
    cases ps with
    | nil => simp [ASC842Calculator.operatingRows] at hy
    | cons p rest =>
      simp only [ASC842Calculator.operatingRows, List.head?_cons, Option.mem_some_iff] at hy
      subst hy
      exact ⟨rfl, rfl, rfl⟩

theorem ifrs_schedule_entries_chain (lease : Lease) (ps : List Payment) :
    List.Chain' EntryStep (IFRS16Calculator.schedule_entries lease ps) := by
  simp only [IFRS16Calculator.schedule_entries, IFRS16Calculator.generate_ifrs16_schedule]
  exact ifrs16Rows_chain _ _ _ _ _ _ _

theorem entryStep_decay {e e' : ScheduleEntry} (h : EntryStep e e') : DecayStep e e' := by
  intro hpos hlt
  rcases h with ⟨hbeg, -, hend⟩
  rw [hend, hbeg]
  refine max_lt ?_ hpos
  linarith

theorem claimPeriodsPerYear_of_short {ps : List Payment} (h : ¬ 1 < ps.length) :
    claimPeriodsPerYear ps = 12 := by
  unfold claimPeriodsPerYear
  rw [if_pos (Or.inl (by omega))]

theorem claimPeriodsPerYear_of_no_positive_gap {ps : List Payment}
    (h : (consecutiveGaps ps).filter (fun d => 0 < d) = []) :
    claimPeriodsPerYear ps = 12 := by
  have hall : ∀ d ∈ consecutiveGaps ps, d ≤ 0 := by
    intro d hd
    by_contra hc
    have hmem : d ∈ (consecutiveGaps ps).filter (fun d => 0 < d) :=
      List.mem_filter.mpr ⟨hd, by simpa using hc⟩
    rw [h] at hmem
    exact absurd hmem (List.not_mem_nil _)
  unfold claimPeriodsPerYear
  rw [if_pos (Or.inr hall)]

theorem claimPeriodsPerYear_of_positive_gap {ps : List Payment}
    (h2 : 1 < ps.length) (hne : (consecutiveGaps ps).filter (fun d => 0 < d) ≠ []) :
    claimPeriodsPerYear ps =
      (let gaps := (consecutiveGaps ps).filter (fun d => 0 < d)
       let avg : ℚ := (gaps.sum : ℚ) / (gaps.length : ℚ)
       if avg ≤ 35 then 12
       else if avg ≤ 100 then 4
       else 1) := by
  have hcond : ¬ (ps.length < 2 ∨ ∀ d ∈ consecutiveGaps ps, d ≤ 0) := by
    rintro (hshort | hall)
    · omega
    · obtain ⟨x, hx⟩ := List.exists_mem_of_ne_nil _ hne
      obtain ⟨hxg, hxpos⟩ := List.mem_filter.mp hx
      have : (0 : ℤ) < x := by simpa using hxpos
      exact absurd (hall x hxg) (by omega)
  unfold claimPeriodsPerYear
  rw [if_neg hcond]

/-- C1: for every non-empty payment list and non-negative periodic rate r,
both present-value engines return the specification's formula: the payment
at 1-indexed period k contributes amount/(1+r)^k (so just the amount when
r = 0), a strictly positive residual value contributes residual/(1+r)^n
(undiscounted when r = 0), and the total is rounded half-up to 2 decimal
places by the ASC 842 calculator and to 3 by the IFRS 16 calculator. -/
theorem present_value_matches_formula (lease : Lease) (ps : List Payment) (r : ℚ)
    (_hne : ps ≠ []) (hr : 0 ≤ r) :
    ASC842Calculator.calculate_present_value_from_payments lease ps r =
        roundHalfUp (pvFormula ps lease.residualValue r) 2 ∧
      IFRS16Calculator.calculate_present_value lease ps r =
        roundHalfUp (pvFormula ps lease.residualValue r) 3 := by
  have hterms := pvTerms_eq_sum r ps 1
  constructor
  · simp only [ASC842Calculator.calculate_present_value_from_payments, pvFormula, hterms]
    congr 1
    by_cases hres : 0 < lease.residualValue
    · rw [if_pos hres, if_pos hres]
      by_cases hrpos : 0 < r
      · rw [if_pos hrpos]
      · have h0 : r = 0 := le_antisymm (not_lt.mp hrpos) hr
        subst h0
        rw [if_neg hrpos]
        norm_num
    · rw [if_neg hres, if_neg hres, add_zero]
  · simp only [IFRS16Calculator.calculate_present_value, pvFormula, hterms]
    congr 1
    by_cases hres : 0 < lease.residualValue
    · rw [if_pos hres, if_pos hres]
      by_cases hr0 : r = 0
      · subst hr0
        rw [if_pos rfl]
        norm_num
      · rw [if_neg hr0]
    · rw [if_neg hres, if_neg hres, add_zero]

/-- C1 witness: the theorem applied to a concrete two-payment lease with
a positive residual value and periodic rate 1/10. -/
theorem present_value_matches_formula_witness :
    (twoPayments ≠ []) ∧ (0 : ℚ) ≤ 1/10 ∧
      (ASC842Calculator.calculate_present_value_from_payments
          { highRateLease with residualValue := 50 } twoPayments (1/10) =
        roundHalfUp
          (pvFormula twoPayments
            ({ highRateLease with residualValue := 50 } : Lease).residualValue (1/10)) 2 ∧
      IFRS16Calculator.calculate_present_value
          { highRateLease with residualValue := 50 } twoPayments (1/10) =
        roundHalfUp
          (pvFormula twoPayments
            ({ highRateLease with residualValue := 50 } : Lease).residualValue (1/10)) 3) :=
  ⟨by simp [twoPayments], by norm_num,
    present_value_matches_formula _ twoPayments (1/10) (by simp [twoPayments]) (by norm_num)⟩

/-- C3: both calculators derive the periodic rate as the lease's annual
percentage rate divided by 100 and then by p, where p is 12 when there are
fewer than two payments or no strictly positive consecutive day gap, and
otherwise p is 12/4/1 according to whether the average of the strictly
positive consecutive day gaps is at most 35, at most 100, or larger. -/
theorem period_rate_matches_claim (lease : Lease) (ps : List Payment) :
    ASC842Calculator.calculate_period_rate_from_payments lease ps =
        lease.incrementalBorrowingRate / 100 / claimPeriodsPerYear ps ∧
      IFRS16Calculator.calculate_period_rate_from_payments lease ps =
        lease.discountRate / 100 / claimPeriodsPerYear ps := by
  constructor
  · simp only [ASC842Calculator.calculate_period_rate_from_payments]
    congr 1
    by_cases h1 : 1 < ps.length
    · rw [if_pos h1]
      by_cases hemp : (consecutiveGaps ps).filter (fun d => 0 < d) = []
      · rw [if_pos hemp, claimPeriodsPerYear_of_no_positive_gap hemp]
      · rw [if_neg hemp, claimPeriodsPerYear_of_positive_gap h1 hemp]
    · rw [if_neg h1, claimPeriodsPerYear_of_short h1]
  · simp only [IFRS16Calculator.calculate_period_rate_from_payments]
    congr 1
    by_cases h1 : 1 < ps.length
    · rw [if_pos h1]
      by_cases hemp : (consecutiveGaps ps).filter (fun d => 0 < d) = []
      · rw [if_pos hemp, claimPeriodsPerYear_of_no_positive_gap hemp]
      · rw [if_neg hemp, claimPeriodsPerYear_of_positive_gap h1 hemp]
    · rw [if_neg h1, claimPeriodsPerYear_of_short h1]

/-- C4: in both calculators the initial measurement returns the computed
present value as the lease liability and the ROU asset as liability plus
initial direct costs plus prepaid rent minus lease incentives, with no
further rounding. -/
theorem initial_measurements_composition (lease : Lease) (ps : List Payment) (r : ℚ) :
    (ASC842Calculator.calculate_initial_measurements lease ps r).2 =
        ASC842Calculator.calculate_present_value_from_payments lease ps r ∧
      (ASC842Calculator.calculate_initial_measurements lease ps r).1 =
        (ASC842Calculator.calculate_initial_measurements lease ps r).2 +
          lease.initialDirectCosts + lease.prepaidRent - lease.leaseIncentives ∧
      (IFRS16Calculator.calculate_initial_measurements lease ps r).2 =
        IFRS16Calculator.calculate_present_value lease ps r ∧
      (IFRS16Calculator.calculate_initial_measurements lease ps r).1 =
        (IFRS16Calculator.calculate_initial_measurements lease ps r).2 +
          lease.initialDirectCosts + lease.prepaidRent - lease.leaseIncentives :=
  ⟨rfl, rfl, rfl, rfl⟩

/-- C2 counterexample: the IFRS 16 variant does not record the payment
amount as principal reduction.  For stdFinLease with two monthly payments
of 1000 the period-1 entry records principal reduction 980.296 (payment
minus interest) against a lease payment of 1000. -/
theorem ifrs16_principal_reduction_counterexample :
    ifrsEntry1.principalReduction ≠ ifrsEntry1.leasePayment := by
  norm_num [ifrsEntry1, IFRS16Calculator.schedule_entries,
    IFRS16Calculator.calculate_period_rate_from_payments,
    IFRS16Calculator.calculate_initial_measurements,
    IFRS16Calculator.calculate_present_value, IFRS16Calculator.generate_ifrs16_schedule,
    IFRS16Calculator.ifrs16Rows, pvTerms, roundHalfUp, consecutiveGaps,
    stdFinLease, twoPayments, max_def, min_def]

/-- C2 (amended): in every generated schedule, every period ≥ 1 entry
records as ending liability the clamp to zero of beginning liability minus
payment plus interest expense, in all three variants; the recorded
principal reduction equals the period's payment amount under the two
ASC 842 variants, while the IFRS 16 variant records payment minus
interest expense. -/
theorem principal_reduction_and_liability_step (lease : Lease) (ps : List Payment) :
    (∀ e ∈ ASC842Calculator.schedule_entries lease ps, 0 < e.period →
        e.principalReduction = e.leasePayment ∧
          e.leaseLiabilityEnding =
            max (e.leaseLiabilityBeginning - e.leasePayment + e.interestExpense) 0) ∧
      ∀ e ∈ IFRS16Calculator.schedule_entries lease ps, 0 < e.period →
        e.principalReduction = e.leasePayment - e.interestExpense ∧
          e.leaseLiabilityEnding =
            max (e.leaseLiabilityBeginning - e.leasePayment + e.interestExpense) 0 := by
  constructor
  · intro e he hpos
    simp only [ASC842Calculator.schedule_entries] at he
    by_cases hc : lease.classification = LeaseClassification.finance
    · rw [if_pos hc] at he
      simp only [ASC842Calculator.generate_finance_lease_schedule, List.mem_cons] at he
      rcases he with h | h
      · subst h; simp [period0Entry] at hpos
      · obtain ⟨h1, h2, -⟩ := financeRows_facts _ _ _ _ _ _ _ e h
        exact ⟨h1, h2⟩
    · rw [if_neg hc] at he
      simp only [ASC842Calculator.generate_operating_lease_schedule, List.mem_cons] at he
      rcases he with h | h
      · subst h; simp [period0Entry] at hpos
      · obtain ⟨h1, h2, -⟩ := operatingRows_facts _ _ _ _ _ _ e h
        exact ⟨h1, h2⟩
  · intro e he hpos
    simp only [IFRS16Calculator.schedule_entries,
      IFRS16Calculator.generate_ifrs16_schedule] at he
    obtain ⟨h1, h2, -⟩ := ifrs16Rows_facts _ _ _ _ _ _ _ e he
    exact ⟨h1, h2⟩

/-- C2 witness: the amended theorem applied to the period-1 entry of the
concrete ASC 842 finance schedule for stdFinLease and twoPayments. -/
theorem principal_reduction_and_liability_step_witness :
    (ascFinEntry1 ∈ ASC842Calculator.schedule_entries stdFinLease twoPayments) ∧
      0 < ascFinEntry1.period ∧
      (ascFinEntry1.principalReduction = ascFinEntry1.leasePayment ∧
        ascFinEntry1.leaseLiabilityEnding =
          max (ascFinEntry1.leaseLiabilityBeginning - ascFinEntry1.leasePayment +
              ascFinEntry1.interestExpense) 0) := by
  have hmem : ascFinEntry1 ∈ ASC842Calculator.schedule_entries stdFinLease twoPayments := by
    unfold ascFinEntry1
    refine getD_default_mem _ 1 ?_
    simp [ASC842Calculator.schedule_entries, ASC842Calculator.generate_finance_lease_schedule,
      financeRows_length, stdFinLease, twoPayments]
  have hpos : 0 < ascFinEntry1.period := by
    norm_num [ascFinEntry1, ASC842Calculator.schedule_entries,
      ASC842Calculator.calculate_period_rate_from_payments,
      ASC842Calculator.calculate_initial_measurements,
      ASC842Calculator.calculate_present_value_from_payments,
      ASC842Calculator.generate_finance_lease_schedule, ASC842Calculator.financeRows,
      pvTerms, roundHalfUp, consecutiveGaps, period0Entry, stdFinLease, twoPayments,
      max_def, min_def]
  exact ⟨hmem, hpos,
    (principal_reduction_and_liability_step stdFinLease twoPayments).1 _ hmem hpos⟩

/-- C5: in every ASC 842 operating schedule, every period ≥ 1 entry
records as total expense the constant straight-line expense, computed as
the sum of all payment amounts plus initial direct costs, divided by the
number of payments and rounded half-up to 2 decimals; its interest
expense is the beginning liability times the periodic rate rounded
half-up to 2 decimals; and its amortization is that straight-line expense
minus interest, floored at 0 and capped at the beginning asset balance. -/
theorem operating_straight_line_plug (lease : Lease) (ps : List Payment)
    (hc : lease.classification = LeaseClassification.operating) :
    ∀ e ∈ ASC842Calculator.schedule_entries lease ps, 0 < e.period →
      e.totalExpense =
          roundHalfUp
            (((ps.map Payment.amount).sum + lease.initialDirectCosts) / (ps.length : ℚ)) 2 ∧
        e.interestExpense =
          roundHalfUp
            (e.leaseLiabilityBeginning *
              ASC842Calculator.calculate_period_rate_from_payments lease ps) 2 ∧
        e.amortization =
          min
            (max
              (roundHalfUp
                  (((ps.map Payment.amount).sum + lease.initialDirectCosts) /
                    (ps.length : ℚ)) 2 -
                e.interestExpense) 0)
            e.rouAssetBeginning := by
  intro e he hpos
  have hnf : ¬ lease.classification = LeaseClassification.finance := by
    rw [hc]; simp
  simp only [ASC842Calculator.schedule_entries, if_neg hnf] at he
  simp only [ASC842Calculator.generate_operating_lease_schedule, List.mem_cons] at he
  rcases he with h | h
  · subst h; simp [period0Entry] at hpos
  · obtain ⟨-, -, -, h4, h5, h6, -⟩ := operatingRows_facts _ _ _ _ _ _ e h
    exact ⟨h6, h4, h5⟩

/-- C5 witness: the theorem applied to the period-1 entry of the concrete
ASC 842 operating schedule for stdOpLease and twoPayments. -/
theorem operating_straight_line_plug_witness :
    stdOpLease.classification = LeaseClassification.operating ∧
      (ascOpEntry1 ∈ ASC842Calculator.schedule_entries stdOpLease twoPayments) ∧
      0 < ascOpEntry1.period ∧
      (ascOpEntry1.totalExpense =
          roundHalfUp
            (((twoPayments.map Payment.amount).sum + stdOpLease.initialDirectCosts) /
              (twoPayments.length : ℚ)) 2 ∧
        ascOpEntry1.interestExpense =
          roundHalfUp
            (ascOpEntry1.leaseLiabilityBeginning *
              ASC842Calculator.calculate_period_rate_from_payments stdOpLease twoPayments) 2 ∧
        ascOpEntry1.amortization =
          min
            (max
              (roundHalfUp
                  (((twoPayments.map Payment.amount).sum + stdOpLease.initialDirectCosts) /
                    (twoPayments.length : ℚ)) 2 -
                ascOpEntry1.interestExpense) 0)
            ascOpEntry1.rouAssetBeginning) := by
  have hmem : ascOpEntry1 ∈ ASC842Calculator.schedule_entries stdOpLease twoPayments := by
    unfold ascOpEntry1
    refine getD_default_mem _ 1 ?_
    simp [ASC842Calculator.schedule_entries, ASC842Calculator.generate_operating_lease_schedule,
      operatingRows_length, stdOpLease, stdFinLease, twoPayments]
  have hpos : 0 < ascOpEntry1.period := by
    have hcond : (LeaseClassification.operating = LeaseClassification.finance) = False := by
      simp
    norm_num [hcond, ascOpEntry1, ASC842Calculator.schedule_entries,
      ASC842Calculator.calculate_period_rate_from_payments,
      ASC842Calculator.calculate_initial_measurements,
      ASC842Calculator.calculate_present_value_from_payments,
      ASC842Calculator.generate_operating_lease_schedule, ASC842Calculator.operatingRows,
      pvTerms, roundHalfUp, consecutiveGaps, period0Entry, stdOpLease, stdFinLease,
      twoPayments, max_def, min_def]
  exact ⟨rfl, hmem, hpos,
    operating_straight_line_plug stdOpLease twoPayments rfl _ hmem hpos⟩

/-- C6 counterexample: with a strictly positive periodic rate the ending
liabilities need not strictly decrease.  For highRateLease (periodic rate
1/10) and clampPayments, the first payment of 1000 exceeds the initial
liability of 909.10, so the period-1 ending liability is clamped to 0 and
the period-2 ending liability is also 0 — not a strict decrease. -/
theorem finance_liability_decay_counterexample :
    highRateLease.classification = LeaseClassification.finance ∧
      0 < ASC842Calculator.calculate_period_rate_from_payments highRateLease clampPayments ∧
      ¬ clampEntry2.leaseLiabilityEnding < clampEntry1.leaseLiabilityEnding := by
  refine ⟨rfl, ?_, ?_⟩
  · norm_num [ASC842Calculator.calculate_period_rate_from_payments, consecutiveGaps,
      highRateLease, stdFinLease, clampPayments]
  · norm_num [clampEntry1, clampEntry2, ASC842Calculator.schedule_entries,
      ASC842Calculator.calculate_period_rate_from_payments,
      ASC842Calculator.calculate_initial_measurements,
      ASC842Calculator.calculate_present_value_from_payments,
      ASC842Calculator.generate_finance_lease_schedule, ASC842Calculator.financeRows,
      pvTerms, roundHalfUp, consecutiveGaps, period0Entry, highRateLease, stdFinLease,
      clampPayments, max_def, min_def]

/-- C6 (amended): liability decay is conditional.  In the ASC842-Finance
and IFRS16 schedules of a lease with positive periodic rate, the ending
liability strictly decreases from one entry to the next at every step
whose earlier ending liability is positive and whose later entry accrues
less interest than its payment. -/
theorem liability_decay_conditional (lease : Lease) (ps : List Payment) :
    (lease.classification = LeaseClassification.finance →
        0 < ASC842Calculator.calculate_period_rate_from_payments lease ps →
        List.Chain' DecayStep (ASC842Calculator.schedule_entries lease ps)) ∧
      (0 < IFRS16Calculator.calculate_period_rate_from_payments lease ps →
        List.Chain' DecayStep (IFRS16Calculator.schedule_entries lease ps)) := by
  constructor
  · intro _ _
    exact (asc_schedule_entries_chain lease ps).imp fun a b h => entryStep_decay h
  · intro _
    exact (ifrs_schedule_entries_chain lease ps).imp fun a b h => entryStep_decay h

/-- C6 witness: the amended theorem applied to the concrete finance lease
stdFinLease with twoPayments and periodic rate 1/100. -/
theorem liability_decay_conditional_witness :
    stdFinLease.classification = LeaseClassification.finance ∧
      0 < ASC842Calculator.calculate_period_rate_from_payments stdFinLease twoPayments ∧
      List.Chain' DecayStep (ASC842Calculator.schedule_entries stdFinLease twoPayments) := by
  have hrate : 0 < ASC842Calculator.calculate_period_rate_from_payments stdFinLease
      twoPayments := by
    norm_num [ASC842Calculator.calculate_period_rate_from_payments, consecutiveGaps,
      stdFinLease, twoPayments]
  exact ⟨rfl, hrate, (liability_decay_conditional stdFinLease twoPayments).1 rfl hrate⟩

/-- C7 counterexample: not every recorded entry has non-negative balances.
The ASC 842 period-0 entry stores the unclamped initial measurements, and
for negRouLease (incentives 500 against a 100 present value) its recorded
ending ROU asset is -400. -/
theorem period0_negative_rou_counterexample :
    ¬ 0 ≤ negRouEntry0.rouAssetEnding := by
  norm_num [negRouEntry0, ASC842Calculator.schedule_entries,
    ASC842Calculator.calculate_period_rate_from_payments,
    ASC842Calculator.calculate_initial_measurements,
    ASC842Calculator.calculate_present_value_from_payments,
    ASC842Calculator.generate_finance_lease_schedule, ASC842Calculator.financeRows,
    pvTerms, roundHalfUp, consecutiveGaps, period0Entry, negRouLease, stdFinLease,
    onePayment100, max_def, min_def]

/-- C7 (amended): in every generated schedule under every variant, every
entry with period ≥ 1 records ending balances that are the clamp to zero
of the computed ending balances (hence non-negative), and every entry's
beginning balances equal the previous entry's recorded ending balances;
the ASC 842 period-0 entry records the unclamped initial measurements. -/
theorem clamped_endings_and_chaining (lease : Lease) (ps : List Payment) :
    (∀ e ∈ ASC842Calculator.schedule_entries lease ps, 0 < e.period →
        0 ≤ e.leaseLiabilityEnding ∧ 0 ≤ e.rouAssetEnding ∧
          e.leaseLiabilityEnding =
            max (e.leaseLiabilityBeginning - e.leasePayment + e.interestExpense) 0 ∧
          e.rouAssetEnding = max (e.rouAssetBeginning - e.amortization) 0) ∧
      (∀ e ∈ IFRS16Calculator.schedule_entries lease ps, 0 < e.period →
        0 ≤ e.leaseLiabilityEnding ∧ 0 ≤ e.rouAssetEnding ∧
          e.leaseLiabilityEnding =
            max (e.leaseLiabilityBeginning - e.leasePayment + e.interestExpense) 0 ∧
          e.rouAssetEnding = max (e.rouAssetBeginning - e.amortization) 0) ∧
      List.Chain' EntryLink (ASC842Calculator.schedule_entries lease ps) ∧
      List.Chain' EntryLink (IFRS16Calculator.schedule_entries lease ps) := by
  refine ⟨?_, ?_, ?_, ?_⟩
  · intro e he hpos
    simp only [ASC842Calculator.schedule_entries] at he
    by_cases hc : lease.classification = LeaseClassification.finance
    · rw [if_pos hc] at he
      simp only [ASC842Calculator.generate_finance_lease_schedule, List.mem_cons] at he
      rcases he with h | h
      · subst h; simp [period0Entry] at hpos
      · obtain ⟨-, h2, h3, -⟩ := financeRows_facts _ _ _ _ _ _ _ e h
        exact ⟨h2 ▸ le_max_right _ _, h3 ▸ le_max_right _ _, h2, h3⟩
    · rw [if_neg hc] at he
      simp only [ASC842Calculator.generate_operating_lease_schedule, List.mem_cons] at he
      rcases he with h | h
      · subst h; simp [period0Entry] at hpos
      · obtain ⟨-, h2, h3, -⟩ := operatingRows_facts _ _ _ _ _ _ e h
        exact ⟨h2 ▸ le_max_right _ _, h3 ▸ le_max_right _ _, h2, h3⟩
  · intro e he hpos
    simp only [IFRS16Calculator.schedule_entries,
      IFRS16Calculator.generate_ifrs16_schedule] at he
    obtain ⟨-, h2, h3, -⟩ := ifrs16Rows_facts _ _ _ _ _ _ _ e he
    exact ⟨h2 ▸ le_max_right _ _, h3 ▸ le_max_right _ _, h2, h3⟩
  · exact (asc_schedule_entries_chain lease ps).imp fun a b h => ⟨h.1, h.2.1⟩
  · exact (ifrs_schedule_entries_chain lease ps).imp fun a b h => ⟨h.1, h.2.1⟩

/-- C7 witness: the amended theorem applied to the period-1 entry of the
concrete ASC 842 finance schedule for stdFinLease and twoPayments. -/
theorem clamped_endings_and_chaining_witness :
    (ascFinEntry2 ∈ ASC842Calculator.schedule_entries stdFinLease twoPayments) ∧
      0 < ascFinEntry2.period ∧
      (0 ≤ ascFinEntry2.leaseLiabilityEnding ∧ 0 ≤ ascFinEntry2.rouAssetEnding ∧
        ascFinEntry2.leaseLiabilityEnding =
          max (ascFinEntry2.leaseLiabilityBeginning - ascFinEntry2.leasePayment +
              ascFinEntry2.interestExpense) 0 ∧
        ascFinEntry2.rouAssetEnding =
          max (ascFinEntry2.rouAssetBeginning - ascFinEntry2.amortization) 0) := by
  have hmem : ascFinEntry2 ∈ ASC842Calculator.schedule_entries stdFinLease twoPayments := by
    unfold ascFinEntry2
    refine getD_default_mem _ 2 ?_
    simp [ASC842Calculator.schedule_entries, ASC842Calculator.generate_finance_lease_schedule,
      financeRows_length, stdFinLease, twoPayments]
  have hpos : 0 < ascFinEntry2.period := by
    norm_num [ascFinEntry2, ASC842Calculator.schedule_entries,
      ASC842Calculator.calculate_period_rate_from_payments,
      ASC842Calculator.calculate_initial_measurements,
      ASC842Calculator.calculate_present_value_from_payments,
      ASC842Calculator.generate_finance_lease_schedule, ASC842Calculator.financeRows,
      pvTerms, roundHalfUp, consecutiveGaps, period0Entry, stdFinLease, twoPayments,
      max_def, min_def]
  exact ⟨hmem, hpos,
    (clamped_endings_and_chaining stdFinLease twoPayments).1 _ hmem hpos⟩

theorem financeRows_filter (r a : ℚ) (n : ℕ) (ps : List Payment) (liab asset : ℚ) :
    (ASC842Calculator.financeRows r a n ps 1 liab asset).filter (fun e => 0 < e.period) =
      ASC842Calculator.financeRows r a n ps 1 liab asset := by
  apply List.filter_eq_self.mpr
  intro e he
  have h6 := (financeRows_facts r a n ps 1 liab asset e he).2.2.2.2.2
  simpa using h6

theorem operatingRows_filter (r sle : ℚ) (ps : List Payment) (liab asset : ℚ) :
    (ASC842Calculator.operatingRows r sle ps 1 liab asset).filter (fun e => 0 < e.period) =
      ASC842Calculator.operatingRows r sle ps 1 liab asset := by
  apply List.filter_eq_self.mpr
  intro e he
  have h7 := (operatingRows_facts r sle ps 1 liab asset e he).2.2.2.2.2.2
  simpa using h7

theorem asc_filter_positive_period (lease : Lease) (ps : List Payment) :
    (ASC842Calculator.schedule_entries lease ps).filter (fun e => 0 < e.period) =
      (ASC842Calculator.schedule_entries lease ps).tail := by
  by_cases hc : lease.classification = LeaseClassification.finance
  · simp only [ASC842Calculator.schedule_entries, if_pos hc,
      ASC842Calculator.generate_finance_lease_schedule]
    rw [List.filter_cons]
    simp [period0Entry, financeRows_filter]
  · simp only [ASC842Calculator.schedule_entries, if_neg hc,
      ASC842Calculator.generate_operating_lease_schedule]
    rw [List.filter_cons]
    simp [period0Entry, operatingRows_filter]

theorem ifrs_entries_positive_period (lease : Lease) (ps : List Payment) :
    ∀ e ∈ IFRS16Calculator.schedule_entries lease ps, 0 < e.period := by
  intro e he
  simp only [IFRS16Calculator.schedule_entries,
    IFRS16Calculator.generate_ifrs16_schedule] at he
  exact (ifrs16Rows_facts _ _ _ _ _ _ _ e he).2.2.2.2.2

theorem asc_schedule_entries_head (lease : Lease) (ps : List Payment) :
    (ASC842Calculator.schedule_entries lease ps).getD 0 default =
      period0Entry lease
        (ASC842Calculator.calculate_initial_measurements lease ps
          (ASC842Calculator.calculate_period_rate_from_payments lease ps)).1
        (ASC842Calculator.calculate_initial_measurements lease ps
          (ASC842Calculator.calculate_period_rate_from_payments lease ps)).2 := by
  by_cases hc : lease.classification = LeaseClassification.finance
  · simp only [ASC842Calculator.schedule_entries, if_pos hc,
      ASC842Calculator.generate_finance_lease_schedule, List.getD_cons_zero]
  · simp only [ASC842Calculator.schedule_entries, if_neg hc,
      ASC842Calculator.generate_operating_lease_schedule, List.getD_cons_zero]

/-- C8: an ASC 842 generation (either classification) heads its entry list
with a period-0 row whose flow fields are all zero and whose balances are
the initial measurements; the stored entries are exactly the entries after
that head, every stored entry has period > 0, and the summary totals sum
only those entries.  An IFRS 16 generation produces only period ≥ 1
entries, stores all of them, and sums its totals over all of them. -/
theorem asc842_period0_excluded_ifrs16_totals (lease : Lease) (ps : List Payment)
    (s t : GeneratedSchedule)
    (hs : ASC842Calculator.generate_schedule lease ps = Except.ok s)
    (ht : IFRS16Calculator.generate_schedule lease ps = Except.ok t) :
    ((s.entries.getD 0 default).period = 0 ∧
        (s.entries.getD 0 default).leasePayment = 0 ∧
        (s.entries.getD 0 default).interestExpense = 0 ∧
        (s.entries.getD 0 default).principalReduction = 0 ∧
        (s.entries.getD 0 default).amortization = 0 ∧
        (s.entries.getD 0 default).totalExpense = 0 ∧
        (s.entries.getD 0 default).leaseLiabilityBeginning = s.initialLeaseLiability ∧
        (s.entries.getD 0 default).leaseLiabilityEnding = s.initialLeaseLiability ∧
        (s.entries.getD 0 default).rouAssetBeginning = s.initialRouAsset ∧
        (s.entries.getD 0 default).rouAssetEnding = s.initialRouAsset) ∧
      s.storedEntries = s.entries.tail ∧
      (∀ e ∈ s.storedEntries, 0 < e.period) ∧
      s.totalPayments = (s.entries.tail.map ScheduleEntry.leasePayment).sum ∧
      s.totalInterest = (s.entries.tail.map ScheduleEntry.interestExpense).sum ∧
      s.totalAmortization = (s.entries.tail.map ScheduleEntry.amortization).sum ∧
      (∀ e ∈ t.entries, 0 < e.period) ∧
      t.storedEntries = t.entries ∧
      t.totalPayments = (t.entries.map ScheduleEntry.leasePayment).sum ∧
      t.totalInterest = (t.entries.map ScheduleEntry.interestExpense).sum ∧
      t.totalAmortization = (t.entries.map ScheduleEntry.amortization).sum := by
  by_cases hps : ps = []
  · rw [ASC842Calculator.generate_schedule, if_pos hps] at hs
    simp at hs
  · simp only [ASC842Calculator.generate_schedule, if_neg hps] at hs
    simp only [IFRS16Calculator.generate_schedule, if_neg hps] at ht
    injection hs with hs'
    injection ht with ht'
    subst hs'
    subst ht'
    refine ⟨?_, ?_, ?_, ?_, ?_, ?_, ?_, ?_, ?_, ?_, ?_⟩
    · dsimp only
      rw [asc_schedule_entries_head]
      simp [period0Entry]
    · exact asc_filter_positive_period lease ps
    · intro e he
      exact of_decide_eq_true (List.mem_filter.mp he).2
    · dsimp only
      rw [asc_filter_positive_period]
    · dsimp only
      rw [asc_filter_positive_period]
    · dsimp only
      rw [asc_filter_positive_period]
    · exact ifrs_entries_positive_period lease ps
    · rfl
    · rfl
    · rfl
    · rfl

/-- C8 witness: the theorem applied to the concrete zero-rate lease with a
single payment of 100, whose generated records are zeroRateAscResult and
zeroRateIfrsResult. -/
theorem asc842_period0_excluded_ifrs16_totals_witness :
    (ASC842Calculator.generate_schedule zeroRateLease onePayment100 =
        Except.ok zeroRateAscResult) ∧
      (IFRS16Calculator.generate_schedule zeroRateLease onePayment100 =
        Except.ok zeroRateIfrsResult) ∧
      zeroRateAscResult.storedEntries = zeroRateAscResult.entries.tail ∧
      zeroRateIfrsResult.storedEntries = zeroRateIfrsResult.entries := by
  have hs : ASC842Calculator.generate_schedule zeroRateLease onePayment100 =
      Except.ok zeroRateAscResult := by
    norm_num [ASC842Calculator.generate_schedule, ASC842Calculator.schedule_entries,
      ASC842Calculator.calculate_period_rate_from_payments,
      ASC842Calculator.calculate_initial_measurements,
      ASC842Calculator.calculate_present_value_from_payments,
      ASC842Calculator.generate_finance_lease_schedule, ASC842Calculator.financeRows,
      pvTerms, roundHalfUp, consecutiveGaps, period0Entry, zeroRateLease, stdFinLease,
      onePayment100, zeroRateAscResult, max_def, min_def]
  have ht : IFRS16Calculator.generate_schedule zeroRateLease onePayment100 =
      Except.ok zeroRateIfrsResult := by
    norm_num [IFRS16Calculator.generate_schedule, IFRS16Calculator.schedule_entries,
      IFRS16Calculator.calculate_period_rate_from_payments,
      IFRS16Calculator.calculate_initial_measurements,
      IFRS16Calculator.calculate_present_value, IFRS16Calculator.generate_ifrs16_schedule,
      IFRS16Calculator.ifrs16Rows, pvTerms, roundHalfUp, consecutiveGaps, zeroRateLease,
      stdFinLease, onePayment100, zeroRateIfrsResult, max_def, min_def]
  refine ⟨hs, ht, ?_, ?_⟩
  · exact (asc842_period0_excluded_ifrs16_totals zeroRateLease onePayment100 _ _ hs ht).2.1
  · exact
      (asc842_period0_excluded_ifrs16_totals zeroRateLease onePayment100 _ _
        hs ht).2.2.2.2.2.2.2.1

/-- C9 counterexample: schedule generation performs no lease-term check.
For degenerateTermLease, whose end date equals its commencement date, both
generators succeed as long as a payment exists, instead of failing with an
InvalidLeaseTerm error before computation. -/
theorem schedule_generation_skips_term_validation :
    degenerateTermLease.endDate ≤ degenerateTermLease.commencementDate ∧
      succeeded (ASC842Calculator.generate_schedule degenerateTermLease onePayment100) =
        true ∧
      succeeded (IFRS16Calculator.generate_schedule degenerateTermLease onePayment100) =
        true := by
  refine ⟨by norm_num [degenerateTermLease, zeroRateLease, stdFinLease], ?_, ?_⟩
  · simp [ASC842Calculator.generate_schedule, onePayment100, succeeded]
  · simp [IFRS16Calculator.generate_schedule, onePayment100, succeeded]

/-- C9 (amended): the invalid-lease-term check (end date not after
commencement) is enforced by the lease create/update API, whose
validate_lease_dates rejects exactly when end ≤ commencement before any
lease is persisted; the calculators themselves never inspect the lease
term: generation fails only with NoPaymentsFound on an empty payment list
and succeeds on any non-empty one, regardless of the dates. -/
theorem lease_term_validation_location (c e : ℤ) (lease : Lease) (ps : List Payment) :
    (LeasesApi.validate_lease_dates c e =
        Except.error LeasesApi.ApiError.invalidLeaseTerm ↔ e ≤ c) ∧
      (ps = [] →
        ASC842Calculator.generate_schedule lease ps =
            Except.error CalcError.noPaymentsFound ∧
          IFRS16Calculator.generate_schedule lease ps =
            Except.error CalcError.noPaymentsFound) ∧
      (ps ≠ [] →
        succeeded (ASC842Calculator.generate_schedule lease ps) = true ∧
          succeeded (IFRS16Calculator.generate_schedule lease ps) = true) := by
  refine ⟨?_, ?_, ?_⟩
  · unfold LeasesApi.validate_lease_dates
    by_cases h : e ≤ c
    · simp [h]
    · simp [h]
  · intro h
    subst h
    exact ⟨by rw [ASC842Calculator.generate_schedule, if_pos rfl],
      by rw [IFRS16Calculator.generate_schedule, if_pos rfl]⟩
  · intro h
    constructor
    · simp only [ASC842Calculator.generate_schedule, if_neg h, succeeded]
    · simp only [IFRS16Calculator.generate_schedule, if_neg h, succeeded]

/-- C9 witness: the amended theorem applied at concrete dates 0/0 and the
concrete zero-rate lease with one payment. -/
theorem lease_term_validation_location_witness :
    (LeasesApi.validate_lease_dates 0 0 =
        Except.error LeasesApi.ApiError.invalidLeaseTerm ↔ (0 : ℤ) ≤ 0) ∧
      onePayment100 ≠ [] ∧
      (succeeded (ASC842Calculator.generate_schedule zeroRateLease onePayment100) = true ∧
        succeeded (IFRS16Calculator.generate_schedule zeroRateLease onePayment100) = true) :=
  ⟨(lease_term_validation_location 0 0 zeroRateLease onePayment100).1,
    by simp [onePayment100],
    (lease_term_validation_location 0 0 zeroRateLease onePayment100).2.2
      (by simp [onePayment100])⟩

/-- C10: a valid single-payment lease with positive periodic rate makes
the ASC842-Finance variant record strictly negative interest: interest is
accrued on the post-payment balance, which is negative because the
discounted liability (990.10) is below the payment (1000), so the
period-1 interest expense is -0.10 — below the 9.90 that beginning-balance
accrual would give — total expense is likewise lower than under
beginning-balance accrual, and the negative interest enters the ending
liability before clamping. -/
theorem finance_negative_interest_example :
    0 < ASC842Calculator.calculate_period_rate_from_payments stdFinLease onePayment1000 ∧
      singlePaymentEntry1.interestExpense < 0 ∧
      singlePaymentEntry1.interestExpense =
        roundHalfUp
          ((singlePaymentEntry1.leaseLiabilityBeginning - singlePaymentEntry1.leasePayment) *
            ASC842Calculator.calculate_period_rate_from_payments stdFinLease onePayment1000)
          2 ∧
      singlePaymentEntry1.interestExpense <
        roundHalfUp
          (singlePaymentEntry1.leaseLiabilityBeginning *
            ASC842Calculator.calculate_period_rate_from_payments stdFinLease onePayment1000)
          2 ∧
      singlePaymentEntry1.totalExpense <
        roundHalfUp
          (singlePaymentEntry1.leaseLiabilityBeginning *
            ASC842Calculator.calculate_period_rate_from_payments stdFinLease onePayment1000)
          2 + singlePaymentEntry1.amortization ∧
      singlePaymentEntry1.leaseLiabilityEnding =
        max (singlePaymentEntry1.leaseLiabilityBeginning - singlePaymentEntry1.leasePayment +
            singlePaymentEntry1.interestExpense) 0 := by
  norm_num [singlePaymentEntry1, ASC842Calculator.schedule_entries,
    ASC842Calculator.calculate_period_rate_from_payments,
    ASC842Calculator.calculate_initial_measurements,
    ASC842Calculator.calculate_present_value_from_payments,
    ASC842Calculator.generate_finance_lease_schedule, ASC842Calculator.financeRows,
    pvTerms, roundHalfUp, consecutiveGaps, period0Entry, stdFinLease, onePayment1000,
    max_def, min_def]

end Kontracts
